import Mathlib

/-!
# Verification of the Ghostty build-and-install orchestrator

A shallow embedding of `src/install.py` (a build-and-install pipeline for
the Ghostty terminal application).  External effects — network transfers,
subprocess invocations, the filesystem — are modelled by explicit
environment records whose fields record the outcome each external call
would produce; the embedded functions then follow the Python control flow
exactly, including `sys.exit`, raised exceptions, and `try/finally`
cleanup, and report the effects they performed (events, file states,
working-directory trace).
-/

namespace GhosttyInstall

/-- Termination behaviour of a piece of Python code: a normal return with a
value, a `sys.exit(code)`, or an uncaught exception propagating out. -/
inductive PyOutcome (α : Type) where
  | ok (a : α)
  | exited (code : Nat)
  | raised
  deriving Repr, DecidableEq

/-! ## `download_file` (install.py lines 53–66)

`download_file(url, destination, pull_always)`: if the destination exists
and `pull_always` is false it logs and returns without any transfer;
otherwise it calls `urllib.request.urlretrieve` and on any exception logs
an error and calls `sys.exit(1)`.
-/

/-- Environment for one `download_file` call: the destination file's
contents before the call (`none` = absent), what a transfer would yield
(`none` = `urlretrieve` raises), and what `urlretrieve` leaves on disk when
it fails (unspecified by the code: possibly a truncated file). -/
structure DownloadEnv where
  destContents : Option String
  fetchResult : Option String
  fetchLeft : Option String
  deriving Repr, DecidableEq

/-- Result of one `download_file` call: the destination file's contents
afterwards, whether a network transfer was performed, and how the call
terminated. -/
structure DownloadResult where
  destAfter : Option String
  transferred : Bool
  outcome : PyOutcome Unit
  deriving Repr, DecidableEq

/-- Embedding of `download_file` (install.py lines 53–66). -/
def download_file (env : DownloadEnv) (pull_always : Bool) : DownloadResult :=
  if env.destContents.isSome && !pull_always then
    { destAfter := env.destContents, transferred := false, outcome := .ok () }
  else
    match env.fetchResult with
    | some c => { destAfter := some c, transferred := true, outcome := .ok () }
    | none => { destAfter := env.fetchLeft, transferred := true, outcome := .exited 1 }

/-! ## `validate_signature` (install.py lines 105–152)

The function first probes `minisign -v`; if that fails it exits with
status 1.  Inside a `try` it creates a `NamedTemporaryFile` with
`delete=False` for the public key, writes the key, runs
`minisign -V -p key -m archive`, then `os.unlink`s the key file and
returns `returncode == 0`.  The `except Exception` handler logs and
returns `False`.  There is no `finally`: the `os.unlink` line is reached
only when the subprocess call returned normally.
-/

/-- Environment for one `validate_signature` call: whether `minisign` is
installed, whether the `NamedTemporaryFile` creation succeeds (the key
file comes into existence exactly when it does), whether writing the key
into it succeeds, and the verifier run (`some rc` = `minisign -V` returns
with exit status `rc`; `none` = the `subprocess.run` call raises). -/
structure SigEnv where
  minisignPresent : Bool
  tempFileOk : Bool
  keyWriteOk : Bool
  verifyRc : Option Int
  deriving Repr, DecidableEq

/-- Result of one `validate_signature` call: how it terminated, whether
the transient public-key file was created, and whether it was unlinked
before the call ended. -/
structure SigResult where
  outcome : PyOutcome Bool
  keyFileCreated : Bool
  keyFileDeleted : Bool
  deriving Repr, DecidableEq

/-- Embedding of `validate_signature` (install.py lines 105–152). -/
def validate_signature (env : SigEnv) : SigResult :=
  if !env.minisignPresent then
    -- the availability probe failed: sys.exit(1) before any key file exists
    { outcome := .exited 1, keyFileCreated := false, keyFileDeleted := false }
  else if !env.tempFileOk then
    -- NamedTemporaryFile raised before the file existed; caught by the
    -- `except Exception` handler, which returns False
    { outcome := .ok false, keyFileCreated := false, keyFileDeleted := false }
  else if !env.keyWriteOk then
    -- the key file exists but writing raised; caught, returns False, and
    -- the os.unlink line is never reached
    { outcome := .ok false, keyFileCreated := true, keyFileDeleted := false }
  else
    match env.verifyRc with
    | none =>
        -- subprocess.run raised; caught, returns False; os.unlink is on
        -- the straight-line path after the run and is never reached
        { outcome := .ok false, keyFileCreated := true, keyFileDeleted := false }
    | some rc =>
        -- the run returned: os.unlink executes, then the returncode test
        { outcome := .ok (rc == 0), keyFileCreated := true, keyFileDeleted := true }

/-! ## `uninstall_ghostty` (install.py lines 321–389)

Three fixed artifact paths are handled one after another, each with its
own `if … exists` guard and its own `try/except` around the `unlink`;
successes and failures accumulate in `removed_items` / `failed_items`.
After the summary, `sys.exit(1)` fires iff `failed_items` is nonempty, and
the "nothing to remove" warning fires iff both lists are empty.
-/

/-- The three artifacts the installer can produce and the uninstaller
enumerates, in the order the code visits them. -/
inductive Artifact where
  | binary
  | appDesktop
  | dolphinMenu
  deriving Repr, DecidableEq

/-- Environment for one `uninstall_ghostty` call: for each of the three
fixed paths, whether the artifact exists and whether its `unlink` would
succeed (an exception from `unlink` is the failure case). -/
structure UninstallEnv where
  binPresent : Bool
  binUnlinkOk : Bool
  appPresent : Bool
  appUnlinkOk : Bool
  dolphinPresent : Bool
  dolphinUnlinkOk : Bool
  deriving Repr, DecidableEq

/-- Result of one `uninstall_ghostty` call: which artifacts had a removal
attempted (i.e. were present), the accumulated `removed_items` and
`failed_items`, whether the "No Ghostty artifacts found to remove"
warning was issued, and the process exit status. -/
structure UninstallResult where
  attempted : List Artifact
  removed : List Artifact
  failed : List Artifact
  warnedNothingFound : Bool
  exitCode : Nat
  deriving Repr, DecidableEq

/-- One per-artifact block of `uninstall_ghostty`: if the path exists,
attempt `unlink` and append to `removed` or `failed`; otherwise log and
skip.  The state is (attempted, removed, failed). -/
def uninstallStep (present unlinkOk : Bool) (a : Artifact)
    (st : List Artifact × List Artifact × List Artifact) :
    List Artifact × List Artifact × List Artifact :=
  if present then
    if unlinkOk then (st.1 ++ [a], st.2.1 ++ [a], st.2.2)
    else (st.1 ++ [a], st.2.1, st.2.2 ++ [a])
  else st

/-- Embedding of `uninstall_ghostty` (install.py lines 321–389). -/
def uninstall_ghostty (env : UninstallEnv) : UninstallResult :=
  let st1 := uninstallStep env.binPresent env.binUnlinkOk .binary ([], [], [])
  let st2 := uninstallStep env.appPresent env.appUnlinkOk .appDesktop st1
  let st3 := uninstallStep env.dolphinPresent env.dolphinUnlinkOk .dolphinMenu st2
  { attempted := st3.1
    removed := st3.2.1
    failed := st3.2.2
    -- the warning line runs only when sys.exit(1) was not taken, which
    -- is implied by both lists being empty
    warnedNothingFound := st3.2.1.isEmpty && st3.2.2.isEmpty
    exitCode := if st3.2.2.isEmpty then 0 else 1 }

/-- Whether the given artifact is present in the uninstall environment. -/
def UninstallEnv.present (env : UninstallEnv) : Artifact → Bool
  | .binary => env.binPresent
  | .appDesktop => env.appPresent
  | .dolphinMenu => env.dolphinPresent

/-- Whether the given artifact's `unlink` would succeed. -/
def UninstallEnv.unlinkOk (env : UninstallEnv) : Artifact → Bool
  | .binary => env.binUnlinkOk
  | .appDesktop => env.appUnlinkOk
  | .dolphinMenu => env.dolphinUnlinkOk

/-! ## `build_ghostty` (install.py lines 205–240)

`os.chdir(ghostty_dir)`, then a `try` running `zig build …`; a non-zero
exit status triggers `sys.exit(1)`, an exception from `subprocess.run`
propagates, and the `finally` runs `os.chdir(original_cwd)` on every one
of those paths before control leaves the function.
-/

/-- Environment for one `build_ghostty` call: `some rc` means the
`zig build` subprocess returned with exit status `rc`; `none` means the
`subprocess.run` call itself raised. -/
structure BuildEnv where
  buildRun : Option Int
  deriving Repr, DecidableEq

/-- Result of one `build_ghostty` call: the successive values the process
working directory takes (initial, after `os.chdir(ghostty_dir)`, after
the `finally`), and how the call terminated. -/
structure BuildResult where
  cwdTrace : List String
  outcome : PyOutcome Unit
  deriving Repr, DecidableEq

/-- Embedding of `build_ghostty` (install.py lines 205–240). -/
def build_ghostty (originalCwd ghosttyDir : String) (env : BuildEnv) :
    BuildResult :=
  match env.buildRun with
  | none =>
      -- subprocess.run raised; the finally restores the cwd, then the
      -- exception propagates out of the function
      { cwdTrace := [originalCwd, ghosttyDir, originalCwd], outcome := .raised }
  | some rc =>
      if rc = 0 then
        { cwdTrace := [originalCwd, ghosttyDir, originalCwd], outcome := .ok () }
      else
        -- sys.exit(1) inside the try; the finally restores the cwd first
        { cwdTrace := [originalCwd, ghosttyDir, originalCwd], outcome := .exited 1 }

/-! ## Desktop-descriptor installation (install.py lines 243–318)

`install_desktop_file` runs two independent best-effort sub-operations:
the application descriptor is read from `dist/linux/app.desktop.in`,
three placeholders are substituted with fixed values, and the result is
written to `~/.local/share/applications/ghostty.desktop`; the Dolphin
service-menu descriptor `dist/linux/ghostty_dolphin.desktop` is copied
byte-for-byte to `~/.local/share/kio/servicemenus/`.  A missing source
file is a logged error with early return.
-/

/-- The `dist/linux` files of a Ghostty source tree that the desktop
installer reads: the application-descriptor template and the Dolphin
service-menu file (`none` = file absent). -/
structure SourceTree where
  appTemplate : Option String
  dolphinFile : Option String
  deriving Repr, DecidableEq

/-- The descriptor files the desktop installer writes (`none` = the
sub-operation returned early because its source file was missing). -/
structure DesktopOutputs where
  appDesktop : Option String
  dolphinDesktop : Option String
  deriving Repr, DecidableEq

/-- The fixed binary path substituted for `@GHOSTTY@`:
`Path.home() / ".local" / "bin" / "ghostty"`. -/
def ghosttyBinaryPath (home : String) : String :=
  home ++ "/.local/bin/ghostty"

/-- The placeholder substitution of `install_app_desktop_file`
(install.py lines 276–280). -/
def renderAppDesktop (home : String) (template : String) : String :=
  ((template.replace "@GHOSTTY@" (ghosttyBinaryPath home)).replace
      "@NAME@" "Ghostty").replace "@APPID@" "com.mitchellh.ghostty"

/-- Embedding of `install_app_desktop_file` (install.py lines 254–289):
returns the contents written to `ghostty.desktop`, or `none` when the
template is absent (logged error, early return). -/
def install_app_desktop_file (home : String) (tree : SourceTree) :
    Option String :=
  tree.appTemplate.map (renderAppDesktop home)

/-- Embedding of `install_dolphin_desktop_file` (install.py lines
292–318): a byte-for-byte copy of the service-menu file, or `none` when
it is absent. -/
def install_dolphin_desktop_file (tree : SourceTree) : Option String :=
  tree.dolphinFile

/-- Embedding of `install_desktop_file` (install.py lines 243–251): the
two sub-operations in sequence. -/
def install_desktop_file (home : String) (tree : SourceTree) :
    DesktopOutputs :=
  { appDesktop := install_app_desktop_file home tree
    dolphinDesktop := install_dolphin_desktop_file tree }

/-! ## `verify_build` (install.py lines 392–406)

Returns true iff the `ghostty` binary exists at `~/.local/bin/ghostty`.
-/

/-- The installed-state facts `verify_build` can observe: whether the
binary exists at the fixed user-local path. -/
structure InstalledState where
  binaryPresent : Bool
  deriving Repr, DecidableEq

/-- Embedding of `verify_build` (install.py lines 392–406). -/
def verify_build (s : InstalledState) : Bool :=
  s.binaryPresent

/-! ## Filesystem model and source extraction (install.py lines 69–78, 728–735)

The filesystem is an association list from paths (component lists) to
file contents.  `shutil.rmtree` removes every file under a directory;
`tarfile.extractall` writes each archive member under the target
directory, overwriting any file already at that path.  `main` deletes the
expected extraction directory `ghostty-<version>` when it pre-exists and
then extracts the release archive into the current working directory.
-/

/-- A filesystem path, as a list of components. -/
abbrev FPath := List String

/-- A filesystem: a finite map from paths to file contents, as an
association list (directories are represented by the files under them). -/
abbrev FSys := List (FPath × String)

/-- Contents of the file at `p`, if any. -/
def lookupFS (fs : FSys) (p : FPath) : Option String :=
  match fs with
  | [] => none
  | e :: fs => if e.1 = p then some e.2 else lookupFS fs p

/-- Whether any file lies under directory `dir` (the observable part of
`Path.exists` for a directory in this model). -/
def dirNonempty (fs : FSys) (dir : FPath) : Bool :=
  fs.any (fun e => dir.isPrefixOf e.1)

/-- Embedding of `shutil.rmtree`: remove every file under `dir`. -/
def rmtree (dir : FPath) (fs : FSys) : FSys :=
  match fs with
  | [] => []
  | e :: fs => if dir.isPrefixOf e.1 then rmtree dir fs else e :: rmtree dir fs

/-- Remove the file at exactly path `q`, if any. -/
def eraseFile (q : FPath) (fs : FSys) : FSys :=
  match fs with
  | [] => []
  | e :: fs => if e.1 = q then eraseFile q fs else e :: eraseFile q fs

/-- Writing one archive member: the file at `target ++ member path` is
overwritten with the member's contents. -/
def extractEntry (target : FPath) (fs : FSys) (ent : FPath × String) : FSys :=
  eraseFile (target ++ ent.1) fs ++ [(target ++ ent.1, ent.2)]

/-- Embedding of `tarfile.extractall` as called by `extract_tar_gz`
(install.py lines 69–78): every archive member is written under the
target directory, in order. -/
def tarExtractAll (target : FPath) (entries : List (FPath × String))
    (fs : FSys) : FSys :=
  entries.foldl (extractEntry target) fs

/-- The expected extraction directory for a version: `cwd/ghostty-<version>`. -/
def ghosttyDirPath (cwd : FPath) (version : String) : FPath :=
  cwd ++ ["ghostty-" ++ version]

/-- Embedding of the extraction sequence of `main` (install.py lines
728–735): if the expected extraction directory pre-exists it is removed
with `shutil.rmtree`, then the release archive is extracted into the
current working directory. -/
def extract_ghostty_source (cwd : FPath) (version : String)
    (entries : List (FPath × String)) (fs : FSys) : FSys :=
  let gd := ghosttyDirPath cwd version
  let fs1 := if dirNonempty fs gd then rmtree gd fs else fs
  tarExtractAll cwd entries fs1

/-! ## `build_ghostty_container` (install.py lines 473–597)

After the `podman` and `Containerfile` precondition checks and the image
build, a random-suffixed container name is chosen and a temporary
directory is created with `tempfile.mkdtemp`.  An outer `try` covers the
container creation and everything after it; its `finally` removes the
temporary directory.  An inner `try` covers artifact extraction and the
install steps; its `finally` runs `podman rm`.  After both `finally`
blocks, `verify_build` gates the final exit status.
-/

/-- Observable actions of the container build, in execution order. -/
inductive CEv where
  | imageBuild
  | containerCreate
  | extractBinary
  | extractDist
  | installBinary
  | stageTree
  | installDesktop
  | podmanRm
  | rmtreeTempDir
  | verifyStep
  deriving Repr, DecidableEq

/-- Environment for one `build_ghostty_container` call: outcomes of the
external checks and subprocess invocations, the `dist/linux` files of the
source tree copied out of the container, and whether the binary ends up
present at the fixed user-local path (what `verify_build` observes). -/
structure ContainerEnv where
  podmanPresent : Bool
  containerfilePresent : Bool
  imageBuildOk : Bool
  createOk : Bool
  extractBinaryOk : Bool
  extractDistOk : Bool
  copyBinaryOk : Bool
  stageTreeOk : Bool
  tree : SourceTree
  installed : InstalledState
  deriving Repr, DecidableEq

/-- Result of one `build_ghostty_container` call: the actions performed
in order, how the call terminated, and the descriptor files written by
`install_desktop_file` when that step ran. -/
structure ContainerResult where
  events : List CEv
  outcome : PyOutcome Unit
  desktop : Option DesktopOutputs
  deriving Repr, DecidableEq

/-- The inner `try` of `build_ghostty_container` (install.py lines
551–589): artifact extraction and installation, with the inner `finally`
(`podman rm`) and the outer `finally` (`shutil.rmtree(temp_dir)`) running
on every path out of it.  A `RuntimeError` from
`extract_artifacts_from_container` or an exception from the install
steps is not caught: it propagates after both cleanups. -/
def containerInner (home : String) (env : ContainerEnv) (evs : List CEv) :
    ContainerResult :=
  let evs := evs ++ [CEv.extractBinary]
  if !env.extractBinaryOk then
    { events := evs ++ [CEv.podmanRm, CEv.rmtreeTempDir],
      outcome := .raised, desktop := none }
  else
    let evs := evs ++ [CEv.extractDist]
    if !env.extractDistOk then
      { events := evs ++ [CEv.podmanRm, CEv.rmtreeTempDir],
        outcome := .raised, desktop := none }
    else
      let evs := evs ++ [CEv.installBinary]
      if !env.copyBinaryOk then
        { events := evs ++ [CEv.podmanRm, CEv.rmtreeTempDir],
          outcome := .raised, desktop := none }
      else
        let evs := evs ++ [CEv.stageTree]
        if !env.stageTreeOk then
          { events := evs ++ [CEv.podmanRm, CEv.rmtreeTempDir],
            outcome := .raised, desktop := none }
        else
          -- install_desktop_file is best-effort and never raises; then the
          -- two finally blocks run, then verify_build gates the exit
          let evs := evs ++ [CEv.installDesktop, CEv.podmanRm,
            CEv.rmtreeTempDir, CEv.verifyStep]
          if verify_build env.installed then
            { events := evs, outcome := .ok (),
              desktop := some (install_desktop_file home env.tree) }
          else
            { events := evs, outcome := .exited 1,
              desktop := some (install_desktop_file home env.tree) }

/-- Embedding of `build_ghostty_container` (install.py lines 473–597). -/
def build_ghostty_container (home : String) (env : ContainerEnv) :
    ContainerResult :=
  if !env.podmanPresent then
    { events := [], outcome := .exited 1, desktop := none }
  else if !env.containerfilePresent then
    { events := [], outcome := .exited 1, desktop := none }
  else
    let evs := [CEv.imageBuild]
    if !env.imageBuildOk then
      { events := evs, outcome := .exited 1, desktop := none }
    else
      -- tempfile.mkdtemp happens here; the outer try begins
      let evs := evs ++ [CEv.containerCreate]
      if !env.createOk then
        -- sys.exit(1) inside the outer try: its finally removes temp_dir;
        -- the container was never created, so no podman rm runs
        { events := evs ++ [CEv.rmtreeTempDir], outcome := .exited 1,
          desktop := none }
      else
        containerInner home env evs

/-! ## The local pipeline of `main` (install.py lines 700–760)

After the two `download_file` calls, the signature gate runs: with
`--skip-signature` a warning is logged and validation is never invoked;
otherwise `validate_signature` is called and a `False` return aborts with
`sys.exit(1)`.  Then the stale extraction directory is removed if
present, the archive is extracted, and (unless `--skip-build`) Zig is set
up, `build_ghostty` runs, `install_desktop_file` runs, and `verify_build`
gates the final exit status.
-/

/-- Observable actions of the local pipeline, in execution order. -/
inductive Ev where
  | fetchArchive
  | fetchSig
  | validateSigCall
  | warnSkipSig
  | rmtreeStale
  | extractArchive
  | setupZigStep
  | buildStep
  | installDesktop
  | verifyStep
  deriving Repr, DecidableEq

/-- How the `validate_signature` call would behave, seen from `main`:
it either terminates the process (missing `minisign`) or returns a
boolean verdict. -/
inductive SigBehavior where
  | exitsMissing
  | returns (b : Bool)
  deriving Repr, DecidableEq

/-- Environment for the local pipeline of `main`: the pre-existing
download destinations and what transfers would yield (fed to
`download_file`), the behaviour of `validate_signature`, whether a stale
extraction directory pre-exists, the outcomes of extraction, Zig setup
and the build, the `dist/linux` files of the extracted tree, and whether
the binary ends up at the fixed user-local path. -/
structure LocalEnv where
  archiveFile : Option String
  archiveFetch : Option String
  sigFile : Option String
  sigFetch : Option String
  sigBehavior : SigBehavior
  staleDirExists : Bool
  extractOk : Bool
  zigSetupOk : Bool
  buildRun : Option Int
  tree : SourceTree
  installed : InstalledState
  deriving Repr, DecidableEq

/-- Result of the local pipeline: the actions performed in order, the
process exit status (`none` = ran to the end, implicit status 0), and the
descriptor files written by `install_desktop_file` when that step ran. -/
structure LocalResult where
  events : List Ev
  exitCode : Option Nat
  desktop : Option DesktopOutputs
  deriving Repr, DecidableEq

/-- The tail of `main` after the signature gate (install.py lines
728–760): stale-directory removal, extraction, and — unless
`--skip-build` — Zig setup, build, desktop-file installation and the
`verify_build` gate.  Events are relative to the gate; `mainLocal`
prepends the events that happened before it.  The directory arguments of
`build_ghostty` do not influence its termination behaviour, so the build
step is consulted through its outcome only. -/
def mainAfterGate (home : String) (env : LocalEnv) (skip_build : Bool) :
    LocalResult :=
  let evs := if env.staleDirExists then [Ev.rmtreeStale] else []
  let evs := evs ++ [Ev.extractArchive]
  if !env.extractOk then
    { events := evs, exitCode := some 1, desktop := none }
  else if skip_build then
    { events := evs, exitCode := none, desktop := none }
  else
    let evs := evs ++ [Ev.setupZigStep]
    if !env.zigSetupOk then
      { events := evs, exitCode := some 1, desktop := none }
    else
      let evs := evs ++ [Ev.buildStep]
      match (build_ghostty "" "" { buildRun := env.buildRun }).outcome with
      | .ok _ =>
          let evs := evs ++ [Ev.installDesktop, Ev.verifyStep]
          if verify_build env.installed then
            { events := evs, exitCode := none,
              desktop := some (install_desktop_file home env.tree) }
          else
            { events := evs, exitCode := some 1,
              desktop := some (install_desktop_file home env.tree) }
      | .exited n => { events := evs, exitCode := some n, desktop := none }
      | .raised => { events := evs, exitCode := some 1, desktop := none }

/-- Embedding of the local (non-container, non-uninstall) pipeline of
`main` (install.py lines 700–760), driven by the `--pull-always`,
`--skip-signature` and `--skip-build` flags. -/
def mainLocal (home : String) (env : LocalEnv)
    (pull_always skip_signature skip_build : Bool) : LocalResult :=
  let dlA := download_file
    { destContents := env.archiveFile, fetchResult := env.archiveFetch,
      fetchLeft := none } pull_always
  let evsA : List Ev := if dlA.transferred then [Ev.fetchArchive] else []
  match dlA.outcome with
  | .exited n => { events := evsA, exitCode := some n, desktop := none }
  | .raised => { events := evsA, exitCode := some 1, desktop := none }
  | .ok _ =>
      let dlS := download_file
        { destContents := env.sigFile, fetchResult := env.sigFetch,
          fetchLeft := none } pull_always
      let evsS := evsA ++ (if dlS.transferred then [Ev.fetchSig] else [])
      match dlS.outcome with
      | .exited n => { events := evsS, exitCode := some n, desktop := none }
      | .raised => { events := evsS, exitCode := some 1, desktop := none }
      | .ok _ =>
          if skip_signature then
            let r := mainAfterGate home env skip_build
            { r with events := evsS ++ [Ev.warnSkipSig] ++ r.events }
          else
            let evsV := evsS ++ [Ev.validateSigCall]
            match env.sigBehavior with
            | .exitsMissing =>
                { events := evsV, exitCode := some 1, desktop := none }
            | .returns false =>
                -- "Signature validation failed, aborting build"; sys.exit(1)
                { events := evsV, exitCode := some 1, desktop := none }
            | .returns true =>
                let r := mainAfterGate home env skip_build
                { r with events := evsV ++ r.events }

/-! ### Concrete environments used by the witnesses -/

/-- A concrete local-pipeline environment in which both download targets
are already present (so the downloads report success without a transfer)
and signature validation would return `False`. -/
def c1Env : LocalEnv :=
  { archiveFile := some "archive-bytes", archiveFetch := none,
    sigFile := some "sig-bytes", sigFetch := none,
    sigBehavior := .returns false, staleDirExists := false,
    extractOk := true, zigSetupOk := true, buildRun := some 0,
    tree := { appTemplate := some "t", dolphinFile := some "d" },
    installed := { binaryPresent := true } }

/-- A concrete container-build environment in which the binary
extraction from the container raises. -/
def c5Env : ContainerEnv :=
  { podmanPresent := true, containerfilePresent := true,
    imageBuildOk := true, createOk := true, extractBinaryOk := false,
    extractDistOk := true, copyBinaryOk := true, stageTreeOk := true,
    tree := { appTemplate := some "t", dolphinFile := some "d" },
    installed := { binaryPresent := true } }

/-- A concrete local-pipeline environment in which every step succeeds. -/
def c9EnvLocal : LocalEnv :=
  { archiveFile := some "archive-bytes", archiveFetch := none,
    sigFile := some "sig-bytes", sigFetch := none,
    sigBehavior := .returns true, staleDirExists := false,
    extractOk := true, zigSetupOk := true, buildRun := some 0,
    tree := { appTemplate := some "Exec=@GHOSTTY@", dolphinFile := some "d" },
    installed := { binaryPresent := true } }

/-- A concrete container-build environment with the same source tree in
which every step succeeds. -/
def c9EnvContainer : ContainerEnv :=
  { podmanPresent := true, containerfilePresent := true,
    imageBuildOk := true, createOk := true, extractBinaryOk := true,
    extractDistOk := true, copyBinaryOk := true, stageTreeOk := true,
    tree := { appTemplate := some "Exec=@GHOSTTY@", dolphinFile := some "d" },
    installed := { binaryPresent := true } }

/-! ## Helper lemmas about the pipeline -/

/-! ### Filesystem lemmas -/

/-- Lookup distributes over append: the left part is consulted first. -/
theorem lookupFS_append (l1 l2 : FSys) (p : FPath) :
    lookupFS (l1 ++ l2) p =
      match lookupFS l1 p with
      | some c => some c
      | none => lookupFS l2 p := by
  induction l1 with
  | nil => simp [lookupFS]
  | cons e l1 ih =>
      by_cases he : e.1 = p
      · simp [lookupFS, he]
      · simp [lookupFS, he, ih]

/-- Erasing a path removes it from lookup and leaves other paths alone. -/
theorem lookupFS_eraseFile (q : FPath) (fs : FSys) (p : FPath) :
    lookupFS (eraseFile q fs) p = if p = q then none else lookupFS fs p := by
  induction fs with
  | nil => simp [eraseFile, lookupFS]
  | cons e fs ih =>
      by_cases he : e.1 = q
      · rw [eraseFile, if_pos he, ih]
        by_cases hp : p = q
        · simp [hp]
        · have hep : ¬ e.1 = p := fun hq => hp (by rw [← hq]; exact he)
          simp [lookupFS, hp, hep]
      · rw [eraseFile, if_neg he]
        by_cases hep : e.1 = p
        · have hpq : ¬ p = q := fun hq => he (by rw [hep, hq])
          simp [lookupFS, hep, hpq]
        · simp [lookupFS, hep, ih]

/-- Lookup after writing one archive member: the member's path now holds
its contents, every other path is unchanged. -/
theorem lookupFS_extractEntry (target : FPath) (fs : FSys)
    (ent : FPath × String) (p : FPath) :
    lookupFS (extractEntry target fs ent) p =
      if p = target ++ ent.1 then some ent.2 else lookupFS fs p := by
  rw [extractEntry, lookupFS_append, lookupFS_eraseFile]
  by_cases hp : p = target ++ ent.1
  · simp [lookupFS, hp]
  · have hne : ¬ target ++ ent.1 = p := fun hq => hp hq.symm
    rw [if_neg hp]
    simp only [lookupFS, hne, if_false]
    rw [if_neg hp]
    cases hfs : lookupFS fs p <;> simp

/-- Extraction reads the pre-existing filesystem only through the lookup
at the observed path: two filesystems agreeing at `p` still agree at `p`
after extracting the same members. -/
theorem lookupFS_tarExtractAll_congr (target : FPath)
    (entries : List (FPath × String)) (fs1 fs2 : FSys) (p : FPath)
    (h : lookupFS fs1 p = lookupFS fs2 p) :
    lookupFS (tarExtractAll target entries fs1) p =
      lookupFS (tarExtractAll target entries fs2) p := by
  induction entries generalizing fs1 fs2 with
  | nil => exact h
  | cons ent entries ih =>
      apply ih
      rw [lookupFS_extractEntry, lookupFS_extractEntry]
      by_cases hp : p = target ++ ent.1 <;> simp [hp, h]

/-- After `rmtree dir`, nothing is under `dir`. -/
theorem lookupFS_rmtree_under (fs : FSys) (dir p : FPath)
    (h : dir.isPrefixOf p = true) :
    lookupFS (rmtree dir fs) p = none := by
  induction fs with
  | nil => rfl
  | cons e fs ih =>
      by_cases he : dir.isPrefixOf e.1
      · simpa [rmtree, he] using ih
      · have hep : ¬ e.1 = p := by
          intro hq
          rw [hq] at he
          exact he h
        simpa [rmtree, lookupFS, he, hep] using ih

/-- If no file lies under `dir`, lookups under `dir` yield nothing. -/
theorem lookupFS_not_dirNonempty (fs : FSys) (dir p : FPath)
    (hd : dirNonempty fs dir = false) (h : dir.isPrefixOf p = true) :
    lookupFS fs p = none := by
  induction fs with
  | nil => rfl
  | cons e fs ih =>
      simp only [dirNonempty, List.any_cons, Bool.or_eq_false_iff] at hd
      have hep : ¬ e.1 = p := by
        intro hq
        rw [hq] at hd
        exact absurd hd.1 (by simp [h])
      simp only [lookupFS, hep, if_false]
      exact ih hd.2

/-- `build_ghostty` terminates in one of three ways. -/
theorem build_ghostty_outcome_cases (o g : String) (env : BuildEnv) :
    (build_ghostty o g env).outcome = .ok () ∨
    (build_ghostty o g env).outcome = .exited 1 ∨
    (build_ghostty o g env).outcome = .raised := by
  rcases env with ⟨_ | rc⟩
  · simp [build_ghostty]
  · by_cases hrc : rc = 0 <;> simp [build_ghostty, hrc]

/-- The gate tail of `main` always attempts extraction and never invokes
signature validation or the skip warning. -/
theorem mainAfterGate_events_facts (home : String) (env : LocalEnv)
    (sb : Bool) :
    Ev.extractArchive ∈ (mainAfterGate home env sb).events ∧
    Ev.validateSigCall ∉ (mainAfterGate home env sb).events ∧
    Ev.warnSkipSig ∉ (mainAfterGate home env sb).events := by
  rcases build_ghostty_outcome_cases "" "" { buildRun := env.buildRun }
      with h | h | h <;>
    cases hst : env.staleDirExists <;> cases hex : env.extractOk <;>
      cases sb <;> cases hz : env.zigSetupOk <;>
        cases hv : verify_build env.installed <;>
          simp [mainAfterGate, h, hst, hex, hz, hv]

/-- If the gate tail of `main` runs to the end with the build enabled,
the final verifier accepted the installed state and the desktop
descriptors were rendered from the tree by `install_desktop_file`. -/
theorem mainAfterGate_success (home : String) (env : LocalEnv)
    (h : (mainAfterGate home env false).exitCode = none) :
    verify_build env.installed = true ∧
    (mainAfterGate home env false).desktop =
      some (install_desktop_file home env.tree) := by
  rcases build_ghostty_outcome_cases "" "" { buildRun := env.buildRun }
      with hb | hb | hb <;>
    cases hst : env.staleDirExists <;> cases hex : env.extractOk <;>
      cases hz : env.zigSetupOk <;>
        cases hv : verify_build env.installed <;>
          simp_all [mainAfterGate, hb, hst, hex, hz, hv]

/-- If the local pipeline with the build enabled runs to the end, the
final verifier accepted the installed state and the desktop descriptors
were rendered from the tree by `install_desktop_file`. -/
theorem mainLocal_success (home : String) (env : LocalEnv)
    (pa ss : Bool)
    (h : (mainLocal home env pa ss false).exitCode = none) :
    verify_build env.installed = true ∧
    (mainLocal home env pa ss false).desktop =
      some (install_desktop_file home env.tree) := by
  rw [mainLocal] at h ⊢
  cases hA : (download_file
      { destContents := env.archiveFile, fetchResult := env.archiveFetch,
        fetchLeft := none } pa).outcome with
  | exited n => simp [hA] at h
  | raised => simp [hA] at h
  | ok _ =>
      cases hS : (download_file
          { destContents := env.sigFile, fetchResult := env.sigFetch,
            fetchLeft := none } pa).outcome with
      | exited n => simp [hA, hS] at h
      | raised => simp [hA, hS] at h
      | ok _ =>
          cases ss with
          | true =>
              simp only [hA, hS, if_pos rfl] at h ⊢
              exact mainAfterGate_success home env h
          | false =>
              cases hb : env.sigBehavior with
              | exitsMissing => simp [hA, hS, hb] at h
              | returns b =>
                  cases b with
                  | false => simp [hA, hS, hb] at h
                  | true =>
                      simp only [hA, hS, hb, Bool.false_eq_true,
                        if_false] at h ⊢
                      exact mainAfterGate_success home env h

/-- If the container build runs to the end with exit status 0, the final
verifier accepted the installed state and the desktop descriptors were
rendered from the extracted tree by `install_desktop_file`. -/
theorem build_ghostty_container_success (home : String) (env : ContainerEnv)
    (h : (build_ghostty_container home env).outcome = .ok ()) :
    verify_build env.installed = true ∧
    (build_ghostty_container home env).desktop =
      some (install_desktop_file home env.tree) := by
  cases hp : env.podmanPresent <;> cases hc : env.containerfilePresent <;>
    cases hi : env.imageBuildOk <;> cases hcr : env.createOk <;>
      cases h1 : env.extractBinaryOk <;> cases h2 : env.extractDistOk <;>
        cases h3 : env.copyBinaryOk <;> cases h4 : env.stageTreeOk <;>
          cases hv : verify_build env.installed <;>
            simp_all [build_ghostty_container, containerInner]

/-- When both downloads succeed, `--skip-signature` is off and the
signature verdict is `False`, the local pipeline exits with status 1
having invoked validation and never having attempted extraction. -/
theorem mainLocal_gate_abort (home : String) (env : LocalEnv) (pa sb : Bool)
    (hA : (download_file
      { destContents := env.archiveFile, fetchResult := env.archiveFetch,
        fetchLeft := none } pa).outcome = .ok ())
    (hS : (download_file
      { destContents := env.sigFile, fetchResult := env.sigFetch,
        fetchLeft := none } pa).outcome = .ok ())
    (hb : env.sigBehavior = .returns false) :
    (mainLocal home env pa false sb).exitCode = some 1 ∧
    Ev.validateSigCall ∈ (mainLocal home env pa false sb).events ∧
    Ev.extractArchive ∉ (mainLocal home env pa false sb).events := by
  cases ht1 : (download_file
      { destContents := env.archiveFile, fetchResult := env.archiveFetch,
        fetchLeft := none } pa).transferred <;>
    cases ht2 : (download_file
        { destContents := env.sigFile, fetchResult := env.sigFetch,
          fetchLeft := none } pa).transferred <;>
      simp [mainLocal, hA, hS, hb, ht1, ht2]

/-- When both downloads succeed and `--skip-signature` is on, the local
pipeline warns, never invokes validation, and proceeds to extraction. -/
theorem mainLocal_skip_sig (home : String) (env : LocalEnv) (pa sb : Bool)
    (hA : (download_file
      { destContents := env.archiveFile, fetchResult := env.archiveFetch,
        fetchLeft := none } pa).outcome = .ok ())
    (hS : (download_file
      { destContents := env.sigFile, fetchResult := env.sigFetch,
        fetchLeft := none } pa).outcome = .ok ()) :
    Ev.validateSigCall ∉ (mainLocal home env pa true sb).events ∧
    Ev.warnSkipSig ∈ (mainLocal home env pa true sb).events ∧
    Ev.extractArchive ∈ (mainLocal home env pa true sb).events := by
  obtain ⟨hg1, hg2, hg3⟩ := mainAfterGate_events_facts home env sb
  cases ht1 : (download_file
      { destContents := env.archiveFile, fetchResult := env.archiveFetch,
        fetchLeft := none } pa).transferred <;>
    cases ht2 : (download_file
        { destContents := env.sigFile, fetchResult := env.sigFetch,
          fetchLeft := none } pa).transferred <;>
      simp [mainLocal, hA, hS, ht1, ht2, List.mem_append, hg1, hg2, hg3]

/-! ## Claim theorems -/

/-- C1: in the local pipeline, if `--skip-signature` is off and
`validate_signature` returns `False`, the process exits with a non-zero
status having invoked validation and without attempting extraction of the
release archive; if `--skip-signature` is on, validation is never invoked
and the pipeline warns and proceeds to extraction regardless of what
validation would have returned. -/
theorem C1_signature_gate (home : String) (env : LocalEnv) (pa sb : Bool)
    (hA : (download_file
      { destContents := env.archiveFile, fetchResult := env.archiveFetch,
        fetchLeft := none } pa).outcome = .ok ())
    (hS : (download_file
      { destContents := env.sigFile, fetchResult := env.sigFetch,
        fetchLeft := none } pa).outcome = .ok ()) :
    (env.sigBehavior = .returns false →
      (mainLocal home env pa false sb).exitCode = some 1 ∧
      Ev.validateSigCall ∈ (mainLocal home env pa false sb).events ∧
      Ev.extractArchive ∉ (mainLocal home env pa false sb).events) ∧
    (Ev.validateSigCall ∉ (mainLocal home env pa true sb).events ∧
      Ev.warnSkipSig ∈ (mainLocal home env pa true sb).events ∧
      Ev.extractArchive ∈ (mainLocal home env pa true sb).events) :=
  ⟨fun hb => mainLocal_gate_abort home env pa sb hA hS hb,
    mainLocal_skip_sig home env pa sb hA hS⟩

/-- Witness for C1 at a concrete environment: with validation returning
`False` the pipeline exits 1 without extracting; with `--skip-signature`
it extracts without validating. -/
theorem C1_signature_gate_witness :
    ((mainLocal "/home/u" c1Env false false false).exitCode = some 1 ∧
      Ev.validateSigCall ∈ (mainLocal "/home/u" c1Env false false false).events ∧
      Ev.extractArchive ∉ (mainLocal "/home/u" c1Env false false false).events) ∧
    (Ev.validateSigCall ∉ (mainLocal "/home/u" c1Env false true false).events ∧
      Ev.warnSkipSig ∈ (mainLocal "/home/u" c1Env false true false).events ∧
      Ev.extractArchive ∈ (mainLocal "/home/u" c1Env false true false).events) :=
  ⟨(C1_signature_gate "/home/u" c1Env false false (by decide) (by decide)).1 rfl,
    (C1_signature_gate "/home/u" c1Env false false (by decide) (by decide)).2⟩

/-- C2 (counterexample): an invocation of `validate_signature` in which
the transient public-key file is created and then the verifier
invocation raises an internal error returns `False` with the key file
still on disk — the claim that the key file is deleted on every outcome,
including internal errors, is false on the code (there is no `finally`
around the `os.unlink`). -/
theorem C2_key_file_leak_counterexample :
    (validate_signature
      { minisignPresent := true, tempFileOk := true, keyWriteOk := true,
        verifyRc := none }).keyFileCreated = true ∧
    (validate_signature
      { minisignPresent := true, tempFileOk := true, keyWriteOk := true,
        verifyRc := none }).keyFileDeleted = false ∧
    (validate_signature
      { minisignPresent := true, tempFileOk := true, keyWriteOk := true,
        verifyRc := none }).outcome = .ok false := by
  decide

/-- C2 (amended): the transient public-key file is deleted before
`validate_signature` returns whenever the external verifier invocation
returns a verdict — on validation success and on validation failure
alike; but when an internal error is raised during verification after
the key file is created, the operation returns `False` and the key file
is not deleted. -/
theorem C2_key_file_cleanup_amended (env : SigEnv)
    (hm : env.minisignPresent = true) (ht : env.tempFileOk = true) :
    (∀ rc, env.verifyRc = some rc → env.keyWriteOk = true →
      (validate_signature env).keyFileCreated = true ∧
      (validate_signature env).keyFileDeleted = true) ∧
    ((env.keyWriteOk = false ∨ env.verifyRc = none) →
      (validate_signature env).keyFileCreated = true ∧
      (validate_signature env).keyFileDeleted = false ∧
      (validate_signature env).outcome = .ok false) := by
  constructor
  · intro rc hrc hk
    simp [validate_signature, hm, ht, hk, hrc]
  · rintro (hk | hv)
    · simp [validate_signature, hm, ht, hk]
    · cases hk2 : env.keyWriteOk
      · simp [validate_signature, hm, ht, hk2]
      · simp [validate_signature, hm, ht, hk2, hv]

/-- Witness for the amended C2: a verifier run that returns (here with
a mismatch exit status 1) deletes the key file; a run that raises after
the key file was written leaves it behind. -/
theorem C2_key_file_cleanup_amended_witness :
    ((validate_signature
      { minisignPresent := true, tempFileOk := true, keyWriteOk := true,
        verifyRc := some 1 }).keyFileCreated = true ∧
     (validate_signature
      { minisignPresent := true, tempFileOk := true, keyWriteOk := true,
        verifyRc := some 1 }).keyFileDeleted = true) ∧
    ((validate_signature
      { minisignPresent := true, tempFileOk := true, keyWriteOk := true,
        verifyRc := none }).keyFileDeleted = false) :=
  ⟨(C2_key_file_cleanup_amended _ rfl rfl).1 1 rfl rfl,
    ((C2_key_file_cleanup_amended
      { minisignPresent := true, tempFileOk := true, keyWriteOk := true,
        verifyRc := none } rfl rfl).2 (Or.inr rfl)).2.1⟩

/-- C3: if the destination exists and `--pull-always` is off,
`download_file` performs no transfer and returns success leaving the
destination unchanged; otherwise it transfers, succeeding when the
transfer succeeds and terminating the process with exit status 1 when it
fails. -/
theorem C3_download_file_contract (env : DownloadEnv) (pa : Bool) :
    (env.destContents.isSome = true ∧ pa = false →
      (download_file env pa).transferred = false ∧
      (download_file env pa).destAfter = env.destContents ∧
      (download_file env pa).outcome = .ok ()) ∧
    (env.destContents.isSome = false ∨ pa = true →
      (download_file env pa).transferred = true ∧
      (∀ c, env.fetchResult = some c →
        (download_file env pa).outcome = .ok () ∧
        (download_file env pa).destAfter = some c) ∧
      (env.fetchResult = none →
        (download_file env pa).outcome = .exited 1)) := by
  constructor
  · rintro ⟨h1, h2⟩
    simp [download_file, h1, h2]
  · intro h
    have hc : (env.destContents.isSome && !pa) = false := by
      rcases h with h | h <;> simp [h]
    cases hf : env.fetchResult <;> simp [download_file, hc, hf]

/-- Witness for C3: a cached file is left alone with a success outcome;
a failed transfer of a missing file exits with status 1. -/
theorem C3_download_file_contract_witness :
    ((download_file
      { destContents := some "cached", fetchResult := some "fresh",
        fetchLeft := none } false).transferred = false ∧
     (download_file
      { destContents := some "cached", fetchResult := some "fresh",
        fetchLeft := none } false).destAfter = some "cached" ∧
     (download_file
      { destContents := some "cached", fetchResult := some "fresh",
        fetchLeft := none } false).outcome = .ok ()) ∧
    (download_file
      { destContents := none, fetchResult := none,
        fetchLeft := none } false).outcome = .exited 1 :=
  ⟨(C3_download_file_contract _ false).1 ⟨rfl, rfl⟩,
    ((C3_download_file_contract
      { destContents := none, fetchResult := none, fetchLeft := none }
      false).2 (Or.inl rfl)).2.2 rfl⟩

/-- C4: `uninstall_ghostty` exits with a non-zero status iff at least
one removal attempt failed; when none of the three artifacts exists it
issues the "nothing to remove" warning and exits with status 0. -/
theorem C4_uninstall_exit_status (env : UninstallEnv) :
    ((uninstall_ghostty env).exitCode ≠ 0 ↔
      (uninstall_ghostty env).failed ≠ []) ∧
    (env.binPresent = false → env.appPresent = false →
      env.dolphinPresent = false →
      (uninstall_ghostty env).removed = [] ∧
      (uninstall_ghostty env).failed = [] ∧
      (uninstall_ghostty env).warnedNothingFound = true ∧
      (uninstall_ghostty env).exitCode = 0) := by
  obtain ⟨b1, b2, b3, b4, b5, b6⟩ := env
  cases b1 <;> cases b2 <;> cases b3 <;> cases b4 <;> cases b5 <;>
    cases b6 <;> decide

/-- Witness for C4: with nothing installed, the uninstaller warns and
exits 0; with one failing removal, it exits non-zero. -/
theorem C4_uninstall_exit_status_witness :
    ((uninstall_ghostty
      { binPresent := false, binUnlinkOk := true, appPresent := false,
        appUnlinkOk := true, dolphinPresent := false,
        dolphinUnlinkOk := true }).warnedNothingFound = true ∧
     (uninstall_ghostty
      { binPresent := false, binUnlinkOk := true, appPresent := false,
        appUnlinkOk := true, dolphinPresent := false,
        dolphinUnlinkOk := true }).exitCode = 0) ∧
    (uninstall_ghostty
      { binPresent := true, binUnlinkOk := false, appPresent := false,
        appUnlinkOk := true, dolphinPresent := false,
        dolphinUnlinkOk := true }).exitCode ≠ 0 :=
  ⟨⟨((C4_uninstall_exit_status _).2 rfl rfl rfl).2.2.1,
    ((C4_uninstall_exit_status _).2 rfl rfl rfl).2.2.2⟩,
    (C4_uninstall_exit_status
      { binPresent := true, binUnlinkOk := false, appPresent := false,
        appUnlinkOk := true, dolphinPresent := false,
        dolphinUnlinkOk := true }).1.mpr (by decide)⟩

/-- C5: once the container build has created the temporary extraction
directory (the preconditions passed and the image build succeeded), the
temporary directory is removed on every exit path, and whenever the
container instance was created, `podman rm` runs on every exit path —
including when artifact extraction or the install steps raise. -/
theorem C5_container_cleanup (home : String) (env : ContainerEnv)
    (hp : env.podmanPresent = true) (hc : env.containerfilePresent = true)
    (hi : env.imageBuildOk = true) :
    CEv.rmtreeTempDir ∈ (build_ghostty_container home env).events ∧
    (env.createOk = true →
      CEv.podmanRm ∈ (build_ghostty_container home env).events) ∧
    (env.createOk = false →
      CEv.podmanRm ∉ (build_ghostty_container home env).events) := by
  cases hcr : env.createOk <;>
    cases h1 : env.extractBinaryOk <;> cases h2 : env.extractDistOk <;>
      cases h3 : env.copyBinaryOk <;> cases h4 : env.stageTreeOk <;>
        cases hv : verify_build env.installed <;>
          simp [build_ghostty_container, containerInner, hp, hc, hi,
            hcr, h1, h2, h3, h4, hv]

/-- Witness for C5: even when binary extraction raises, both the
container removal and the temporary-directory removal happen (and the
error propagates). -/
theorem C5_container_cleanup_witness :
    CEv.rmtreeTempDir ∈ (build_ghostty_container "/home/u" c5Env).events ∧
    CEv.podmanRm ∈ (build_ghostty_container "/home/u" c5Env).events :=
  ⟨(C5_container_cleanup "/home/u" c5Env rfl rfl rfl).1,
    (C5_container_cleanup "/home/u" c5Env rfl rfl rfl).2.1 rfl⟩

/-- C6: the uninstaller attempts removal of exactly the artifacts
present on disk; each artifact lands in `removed` or `failed` purely as
a function of its own presence and its own unlink outcome, so one
artifact's failure cannot block the attempts on the others, and absent
artifacts are skipped without error. -/
theorem C6_uninstall_independent (env : UninstallEnv) (a : Artifact) :
    (a ∈ (uninstall_ghostty env).attempted ↔ env.present a = true) ∧
    (a ∈ (uninstall_ghostty env).removed ↔
      env.present a = true ∧ env.unlinkOk a = true) ∧
    (a ∈ (uninstall_ghostty env).failed ↔
      env.present a = true ∧ env.unlinkOk a = false) := by
  obtain ⟨b1, b2, b3, b4, b5, b6⟩ := env
  cases b1 <;> cases b2 <;> cases b3 <;> cases b4 <;> cases b5 <;>
    cases b6 <;> cases a <;> decide

/-- Witness for C6: with the binary failing to unlink and the app
descriptor present, the app descriptor is still attempted and removed,
and the absent service menu is not attempted. -/
theorem C6_uninstall_independent_witness :
    (Artifact.appDesktop ∈ (uninstall_ghostty
      { binPresent := true, binUnlinkOk := false, appPresent := true,
        appUnlinkOk := true, dolphinPresent := false,
        dolphinUnlinkOk := true }).removed ↔
      (UninstallEnv.present
        { binPresent := true, binUnlinkOk := false, appPresent := true,
          appUnlinkOk := true, dolphinPresent := false,
          dolphinUnlinkOk := true } .appDesktop = true ∧
       UninstallEnv.unlinkOk
        { binPresent := true, binUnlinkOk := false, appPresent := true,
          appUnlinkOk := true, dolphinPresent := false,
          dolphinUnlinkOk := true } .appDesktop = true)) :=
  (C6_uninstall_independent _ .appDesktop).2.1

/-- C7: `build_ghostty` changes the working directory from the original
directory to the source directory for the duration of the toolchain
invocation and restores the original directory afterwards on every
outcome — in particular also when the build exits non-zero and the
pipeline is terminated with `sys.exit(1)`. -/
theorem C7_build_scoped_chdir (o g : String) (env : BuildEnv) :
    (build_ghostty o g env).cwdTrace = [o, g, o] ∧
    (∀ rc, env.buildRun = some rc → rc ≠ 0 →
      (build_ghostty o g env).outcome = .exited 1) := by
  rcases env with ⟨_ | rc⟩
  · simp [build_ghostty]
  · by_cases hrc : rc = 0 <;> simp [build_ghostty, hrc]

/-- Witness for C7: a failing build (exit status 1 from `zig build`)
terminates the pipeline yet the directory trace still ends at the
original working directory. -/
theorem C7_build_scoped_chdir_witness :
    (build_ghostty "/work" "/work/ghostty-1.2.0"
      { buildRun := some 1 }).cwdTrace = ["/work", "/work/ghostty-1.2.0", "/work"] ∧
    (build_ghostty "/work" "/work/ghostty-1.2.0"
      { buildRun := some 1 }).outcome = .exited 1 :=
  ⟨(C7_build_scoped_chdir "/work" "/work/ghostty-1.2.0" { buildRun := some 1 }).1,
    (C7_build_scoped_chdir "/work" "/work/ghostty-1.2.0" { buildRun := some 1 }).2
      1 rfl (by decide)⟩

/-- C8: before the release archive is extracted, any pre-existing
directory at the expected extraction path is recursively deleted, so
that below that path the resulting filesystem coincides with extracting
the archive into an empty filesystem — the directory holds only the
freshly unpacked contents and nothing from a stale prior tree. -/
theorem C8_clean_extraction (cwd : FPath) (version : String)
    (entries : List (FPath × String)) (fs : FSys) (p : FPath)
    (h : (ghosttyDirPath cwd version).isPrefixOf p = true) :
    lookupFS (extract_ghostty_source cwd version entries fs) p =
      lookupFS (tarExtractAll cwd entries []) p := by
  simp only [extract_ghostty_source]
  by_cases hd : dirNonempty fs (ghosttyDirPath cwd version) = true
  · simp only [hd, if_true]
    exact lookupFS_tarExtractAll_congr cwd entries _ _ p
      (by rw [lookupFS_rmtree_under fs _ p h]; rfl)
  · rw [if_neg hd]
    exact lookupFS_tarExtractAll_congr cwd entries _ _ p
      (by rw [lookupFS_not_dirNonempty fs _ p (by simpa using hd) h]; rfl)

/-- Witness for C8: a stale file inside a pre-existing
`ghostty-1.2.0` directory is gone after the extraction sequence (the
fresh archive does not contain it). -/
theorem C8_clean_extraction_witness :
    lookupFS
      (extract_ghostty_source [] "1.2.0"
        [(["ghostty-1.2.0", "build.zig"], "fresh")]
        [(["ghostty-1.2.0", "stale.o"], "old")])
      ["ghostty-1.2.0", "stale.o"] =
    lookupFS
      (tarExtractAll [] [(["ghostty-1.2.0", "build.zig"], "fresh")] [])
      ["ghostty-1.2.0", "stale.o"] :=
  C8_clean_extraction [] "1.2.0" [(["ghostty-1.2.0", "build.zig"], "fresh")]
    [(["ghostty-1.2.0", "stale.o"], "old")] ["ghostty-1.2.0", "stale.o"]
    (by decide)

/-- C9: on success, the local-build path and the container-build path
converge on the same installed state: each gates its success on
`verify_build` (the binary present at the fixed user-local path), and
given the same source tree both produce byte-identical desktop-descriptor
outputs, since both run `install_desktop_file` with the same fixed
substitutions. -/
theorem C9_path_convergence (home : String) (envL : LocalEnv) (pa ss : Bool)
    (envC : ContainerEnv)
    (hL : (mainLocal home envL pa ss false).exitCode = none)
    (hC : (build_ghostty_container home envC).outcome = .ok ())
    (htree : envL.tree = envC.tree) :
    verify_build envL.installed = true ∧
    verify_build envC.installed = true ∧
    (mainLocal home envL pa ss false).desktop =
      some (install_desktop_file home envL.tree) ∧
    (build_ghostty_container home envC).desktop =
      some (install_desktop_file home envC.tree) ∧
    (mainLocal home envL pa ss false).desktop =
      (build_ghostty_container home envC).desktop := by
  obtain ⟨hv1, hd1⟩ := mainLocal_success home envL pa ss hL
  obtain ⟨hv2, hd2⟩ := build_ghostty_container_success home envC hC
  exact ⟨hv1, hv2, hd1, hd2, by rw [hd1, hd2, htree]⟩

/-- Witness for C9: on the two concrete all-success environments with
the same source tree, both verifiers accept and the desktop outputs of
the two paths coincide. -/
theorem C9_path_convergence_witness :
    verify_build c9EnvLocal.installed = true ∧
    verify_build c9EnvContainer.installed = true ∧
    (mainLocal "/home/u" c9EnvLocal false false false).desktop =
      (build_ghostty_container "/home/u" c9EnvContainer).desktop :=
  ⟨(C9_path_convergence "/home/u" c9EnvLocal false false c9EnvContainer
      rfl rfl rfl).1,
    (C9_path_convergence "/home/u" c9EnvLocal false false c9EnvContainer
      rfl rfl rfl).2.1,
    (C9_path_convergence "/home/u" c9EnvLocal false false c9EnvContainer
      rfl rfl rfl).2.2.2.2⟩

/-- C10: if an exception is raised inside `validate_signature` after the
`minisign` availability check passed — creating the temporary key file,
writing the key, or invoking the verifier — the call returns `False`
instead of raising or terminating the process, and a caller seeing that
`False` aborts the build through the normal signature gate (exit status
1, no extraction attempted). -/
theorem C10_internal_error_like_mismatch (env : SigEnv)
    (hm : env.minisignPresent = true)
    (herr : env.tempFileOk = false ∨ env.keyWriteOk = false ∨
      env.verifyRc = none)
    (home : String) (lenv : LocalEnv) (pa sb : Bool)
    (hA : (download_file
      { destContents := lenv.archiveFile, fetchResult := lenv.archiveFetch,
        fetchLeft := none } pa).outcome = .ok ())
    (hS : (download_file
      { destContents := lenv.sigFile, fetchResult := lenv.sigFetch,
        fetchLeft := none } pa).outcome = .ok ())
    (hb : lenv.sigBehavior = .returns false) :
    (validate_signature env).outcome = .ok false ∧
    (mainLocal home lenv pa false sb).exitCode = some 1 ∧
    Ev.extractArchive ∉ (mainLocal home lenv pa false sb).events := by
  refine ⟨?_, (mainLocal_gate_abort home lenv pa sb hA hS hb).1,
    (mainLocal_gate_abort home lenv pa sb hA hS hb).2.2⟩
  rcases herr with h | h | h
  · simp [validate_signature, hm, h]
  · cases ht : env.tempFileOk <;> simp [validate_signature, hm, ht, h]
  · cases ht : env.tempFileOk <;> cases hk : env.keyWriteOk <;>
      simp [validate_signature, hm, ht, hk, h]

/-- Witness for C10: a verifier invocation that raises yields a `False`
verdict, and the pipeline seeing `False` aborts without extraction. -/
theorem C10_internal_error_like_mismatch_witness :
    (validate_signature
      { minisignPresent := true, tempFileOk := true, keyWriteOk := true,
        verifyRc := none }).outcome = .ok false ∧
    (mainLocal "/home/u" c1Env false false false).exitCode = some 1 ∧
    Ev.extractArchive ∉ (mainLocal "/home/u" c1Env false false false).events :=
  C10_internal_error_like_mismatch
    { minisignPresent := true, tempFileOk := true, keyWriteOk := true,
      verifyRc := none } rfl (Or.inr (Or.inr rfl))
    "/home/u" c1Env false false (by decide) (by decide) rfl

end GhosttyInstall
